import Mathlib

/-!
Verification development for the ADB Pairing CLI (`adb.py`), an interactive
front-end that shells out to the `adb` bridge executable.

The Python source is shallowly embedded: every pure helper becomes a Lean
function on `String`/`List Char`; the process environment (presence of the
bridge executable, its stdout/stderr/exit-code behaviour, the local
filesystem, the resolved mirroring tool) is a record of oracles; each menu
operation becomes a function returning the trace of observable events
(subprocess launches, prompts, console output) together with an
`Except`-value modelling uncaught Python exceptions.
-/

namespace Adb

/-! ## Python string primitives (structural recursion, kernel-reducible) -/

/-- Characters treated as whitespace by Python `str.split()` / `str.strip()`
(the ASCII subset; exotic unicode whitespace is not modelled). -/
def pyIsSpace (c : Char) : Bool :=
  c = ' ' || c = '\t' || c = '\n' || c = '\r' || c = '\x0b' || c = '\x0c'

/-- Python `str.strip()` with no arguments. -/
def pyStrip (s : String) : String :=
  String.mk (((s.data.dropWhile pyIsSpace).reverse.dropWhile pyIsSpace).reverse)

/-- Split a character list at every occurrence of `sep` (Python
`str.split(sep)` on character separators). -/
def splitOnCharAux (sep : Char) : List Char → List Char → List (List Char)
  | [], cur => [cur.reverse]
  | c :: rest, cur =>
    if c = sep then cur.reverse :: splitOnCharAux sep rest []
    else splitOnCharAux sep rest (c :: cur)

/-- Python `str.splitlines()`, for `\n`-separated text (the only line
terminator produced by the stdout the tool parses after stripping). -/
def pySplitlines (s : String) : List String :=
  match s.data with
  | [] => []
  | l =>
    let l := if l.getLast? = some '\n' then l.dropLast else l
    (splitOnCharAux '\n' l []).map String.mk

/-- Worker for Python `str.split()` (no arguments): split on runs of
whitespace, never producing empty tokens. -/
def splitWsAux : List Char → List Char → List (List Char)
  | [], [] => []
  | [], cur => [cur.reverse]
  | c :: rest, cur =>
    if pyIsSpace c then
      match cur with
      | [] => splitWsAux rest []
      | _ => cur.reverse :: splitWsAux rest []
    else splitWsAux rest (c :: cur)

/-- Python `str.split()` with no arguments. -/
def pySplitWs (s : String) : List String :=
  (splitWsAux s.data []).map String.mk

/-- Python `line.split()[0]`, defaulting to `""` on an all-whitespace line (the
source only applies it to non-blank lines). -/
def pyFirstToken (line : String) : String :=
  (pySplitWs line).headD ""

/-- Python `str.split(maxsplit=1)`: leading whitespace skipped, first token,
then the remainder with the separating whitespace removed. -/
def pySplitMax1 (s : String) : List String :=
  let cs := s.data.dropWhile pyIsSpace
  let tok := cs.takeWhile (fun c => !pyIsSpace c)
  let rest := (cs.dropWhile (fun c => !pyIsSpace c)).dropWhile pyIsSpace
  if cs = [] then []
  else if rest = [] then [String.mk tok]
  else [String.mk tok, String.mk rest]

/-- Substring test on character lists (worker for Python `in`). -/
def pyContainsAux (needle : List Char) : List Char → Bool
  | [] => needle = []
  | c :: rest => needle.isPrefixOf (c :: rest) || pyContainsAux needle rest

/-- Python `sub in s` substring containment. -/
def pyContains (s sub : String) : Bool :=
  pyContainsAux sub.data s.data

/-- Python `s.startswith(pre)`. -/
def pyStartsWith (s pre : String) : Bool :=
  pre.data.isPrefixOf s.data

/-- Python string truthiness combinator `a or b`. -/
def pyOrStr (a b : String) : String :=
  if a = "" then b else a

/-- Python `hostport.split(":")[0]`: the portion before the first colon (the whole
string when there is no colon). -/
def pyBeforeColon (s : String) : String :=
  String.mk ((splitOnCharAux ':' s.data []).headD [])

/-- Accumulate a decimal value over a digit list; `none` on any non-digit. -/
def digitAccum : List Char → Nat → Option Nat
  | [], acc => some acc
  | c :: rest, acc =>
    if c.isDigit then digitAccum rest (acc * 10 + (c.toNat - 48)) else none

/-- Python `int(s)` for decimal strings: surrounding whitespace stripped, an
optional sign, then at least one digit; `none` models `ValueError`.
(Numeric-literal underscores are not modelled.) -/
def pyParseInt (s : String) : Option Int :=
  match (pyStrip s).data with
  | [] => none
  | '-' :: rest =>
    match rest with
    | [] => none
    | _ => (digitAccum rest 0).map fun n => -(n : Int)
  | '+' :: rest =>
    match rest with
    | [] => none
    | _ => (digitAccum rest 0).map fun n => (n : Int)
  | cs => (digitAccum cs 0).map fun n => (n : Int)

/-- Python list indexing `xs[i]` with negative-index semantics: `i ≥ 0`
selects position `i`; `i < 0` selects position `len + i`; out of range is
`none` (models `IndexError`). -/
def pyIndex (xs : List String) (i : Int) : Option String :=
  if 0 ≤ i then xs.get? i.toNat
  else if i.natAbs ≤ xs.length then xs.get? (xs.length - i.natAbs)
  else none

/-! ## `shlex.split` (POSIX mode, `whitespace_split=True`, no comments) -/

/-- Lexer mode of `shlex`: outside quotes, inside single quotes, inside
double quotes. -/
inductive SMode where
  | top
  | inSingle
  | inDouble
  deriving DecidableEq

/-- The single-quote character (written via its code point). -/
def squoteChar : Char := Char.ofNat 39

/-- The `shlex.split` state machine. `cur = none` means no token is open;
`some t` holds the current token reversed. Errors carry the `ValueError`
message CPython raises. -/
def shlexAux : SMode → List Char → Option (List Char) → List (List Char) →
    Except String (List (List Char))
  | .top, [], none, toks => .ok toks
  | .top, [], some cur, toks => .ok (toks ++ [cur.reverse])
  | .top, c :: rest, cur, toks =>
    if pyIsSpace c then
      match cur with
      | none => shlexAux .top rest none toks
      | some t => shlexAux .top rest none (toks ++ [t.reverse])
    else if c = squoteChar then shlexAux .inSingle rest (some (cur.getD [])) toks
    else if c = '"' then shlexAux .inDouble rest (some (cur.getD [])) toks
    else if c = '\\' then
      match rest with
      | [] => .error "No escaped character"
      | d :: rest2 => shlexAux .top rest2 (some (d :: cur.getD [])) toks
    else shlexAux .top rest (some (c :: cur.getD [])) toks
  | .inSingle, [], _, _ => .error "No closing quotation"
  | .inSingle, c :: rest, cur, toks =>
    if c = squoteChar then shlexAux .top rest cur toks
    else shlexAux .inSingle rest (some (c :: cur.getD [])) toks
  | .inDouble, [], _, _ => .error "No closing quotation"
  | .inDouble, c :: rest, cur, toks =>
    if c = '"' then shlexAux .top rest cur toks
    else if c = '\\' then
      match rest with
      | [] => .error "No escaped character"
      | d :: rest2 =>
        if d = '"' || d = '\\' then
          shlexAux .inDouble rest2 (some (d :: cur.getD [])) toks
        else
          shlexAux .inDouble rest2 (some (d :: '\\' :: cur.getD [])) toks
    else shlexAux .inDouble rest (some (c :: cur.getD [])) toks

/-- Python `shlex.split(s)` (posix mode, whitespace splitting, comments
disabled — the configuration used by `shlex.split`). -/
def pyShlexSplit (s : String) : Except String (List String) :=
  (shlexAux .top s.data none []).map fun ts => ts.map String.mk

/-! ## Environment model -/

/-- Uncaught Python exceptions relevant to the session loop:
`FileNotFoundError` (re-raised by `run_adb` when the bridge executable
cannot be launched — the ToolMissing condition) and `ValueError` (raised by
`shlex.split` on malformed command strings). -/
inductive PyError where
  | fileNotFound (msg : String)
  | valueError (msg : String)
  deriving DecidableEq

/-- Console output, classified the way the source classifies it by colour:
green success, red failure, yellow warning, plain info, and the device
table rendered by `list_devices`. -/
inductive Msg where
  | success (s : String)
  | failure (s : String)
  | warn (s : String)
  | info (s : String)
  | table (rows : List (String × String))
  deriving DecidableEq

/-- Observable events of one operation: a captured-mode bridge invocation
(`run_adb`), a direct attached-mode subprocess launch (interactive shell,
scrcpy), a `Prompt.ask`, and console output. -/
inductive Event where
  | bridgeCall (args : List String)
  | rawCall (args : List String)
  | prompt (label : String)
  | display (m : Msg)
  deriving DecidableEq

/-- The process environment the tool runs against:
whether the bridge executable is resolvable/launchable at all, its resolved
path, its behaviour `exec args = (exit code, stdout, stderr)` when present,
the filesystem oracles backing `os.path.isfile` / `os.path.exists`, and the
result of `ensure_scrcpy` (which only touches the filesystem, network and
package manager, never the bridge, and is therefore modelled as an oracle
for its resolved path). -/
structure World where
  bridgePresent : Bool
  adbPath : String
  exec : List String → Int × String × String
  isfile : String → Bool
  pathExists : String → Bool
  scrcpyResolve : Option String

/-- The free-text answers the user gives to the various `Prompt.ask` calls
during one session-loop cycle (each operation reads only the fields it
prompts for), plus the `Confirm.ask` answer on exit. -/
structure Inputs where
  hostport : String
  pin : String
  port : String
  command : String
  apkPath : String
  pushSrc : String
  pushDst : String
  pullRemote : String
  pullDst : String
  rebootMode : String
  disconnectHost : String
  devChoice : String
  confirmExit : Bool

/-- The message of the `FileNotFoundError` that `run_adb` raises when the
bridge executable cannot be launched. -/
def adbMissingMsg : String :=
  "ADB tidak ditemukan. Pastikan adb terpasang atau unduh otomatis."

/-- The function `run_adb(args)`: resolve the bridge, launch it in captured mode, return
`(returncode, stdout.strip(), stderr.strip())`; when the executable cannot
be launched, re-raise `FileNotFoundError` (the ToolMissing condition).
The trace records the launch when it happens. -/
def run_adb (w : World) (args : List String) :
    List Event × Except PyError (Int × String × String) :=
  if w.bridgePresent then
    let r := w.exec args
    ([Event.bridgeCall args], .ok (r.1, pyStrip r.2.1, pyStrip r.2.2))
  else
    ([], .error (.fileNotFound adbMissingMsg))

/-! ## Device selection (`_pick_serial_interactive`) -/

/-- The per-line filter of `_pick_serial_interactive`:
`line.strip() and "device" in line`. -/
def selectableLine (line : String) : Bool :=
  (!(pyStrip line == "")) && pyContains line "device"

/-- The serial extraction of `_pick_serial_interactive`:
`[line.split()[0] for line in out.splitlines()[1:] if line.strip() and "device" in line]`. -/
def readySerials (out : String) : List String :=
  ((pySplitlines out).drop 1).filterMap fun line =>
    if selectableLine line then some (pyFirstToken line) else none

/-- Python `serials[int(choice) - 1]` under Python semantics, with the source's
`except Exception: return serials[0]` fallback on parse or index errors. -/
def pySelectSerial (serials : List String) (choice : String) : String :=
  match pyParseInt choice with
  | none => serials.headD ""
  | some i =>
    match pyIndex serials (i - 1) with
    | some s => s
    | none => serials.headD ""

/-- The function `_pick_serial_interactive()`: list devices, filter ready lines, then
auto-select or prompt. -/
def pickSerial (w : World) (choice : String) :
    List Event × Except PyError (Option String) :=
  match run_adb w ["devices"] with
  | (ev, .error e) => (ev, .error e)
  | (ev, .ok (rc, out, err)) =>
    if rc ≠ 0 then
      (ev ++ [Event.display (.failure ("Error: " ++ pyOrStr err out))], .ok none)
    else
      match readySerials out with
      | [] => (ev ++ [Event.display (.failure "Tidak ada device tersedia.")], .ok none)
      | [s] => (ev, .ok (some s))
      | s0 :: s1 :: rest =>
        let serials := s0 :: s1 :: rest
        let enumEv := (((List.range serials.length).map (· + 1)).zip serials).map
          fun p => Event.display (.info (toString p.1 ++ ". " ++ p.2))
        (ev ++ enumEv ++ [Event.prompt "Pilih device"],
         .ok (some (pySelectSerial serials choice)))

/-! ## Operation catalog -/

/-- Helper of `list_devices()`: the serial/info rows rendered in the table, from
`line.split(maxsplit=1)` over the non-header non-blank lines. -/
def parseDeviceRows (out : String) : List (String × String) :=
  ((pySplitlines out).drop 1).filterMap fun line =>
    if pyStrip line = "" then none
    else
      match pySplitMax1 line with
      | [] => none
      | [a] => some (a, "")
      | a :: b :: _ => some (a, b)

/-- Menu 1: `list_devices()`. -/
def list_devices (w : World) : List Event × Except PyError Unit :=
  match run_adb w ["devices", "-l"] with
  | (ev, .error e) => (ev, .error e)
  | (ev, .ok (rc, out, err)) =>
    if rc = 0 then
      (ev ++ [Event.display (.table (parseDeviceRows out))], .ok ())
    else
      (ev ++ [Event.display (.failure ("Error: " ++ pyOrStr err out))], .ok ())

/-- Menu 2: `start_server()`. -/
def start_server (w : World) : List Event × Except PyError Unit :=
  match run_adb w ["start-server"] with
  | (ev, .error e) => (ev, .error e)
  | (ev, .ok (rc, out, err)) =>
    if rc = 0 then (ev ++ [Event.display (.success (pyOrStr out "Server started"))], .ok ())
    else (ev ++ [Event.display (.failure err)], .ok ())

/-- Menu 3: `stop_server()`. -/
def stop_server (w : World) : List Event × Except PyError Unit :=
  match run_adb w ["kill-server"] with
  | (ev, .error e) => (ev, .error e)
  | (ev, .ok (rc, out, err)) =>
    if rc = 0 then (ev ++ [Event.display (.success (pyOrStr out "Server stopped"))], .ok ())
    else (ev ++ [Event.display (.failure err)], .ok ())

/-- Menu 4: `pair_device()`; on `rc == 0 and "Successfully" in out` it issues
the automatic `connect <host>:5555` follow-up, downgrading a follow-up
failure to a warning. -/
def pair_device (w : World) (inp : Inputs) : List Event × Except PyError Unit :=
  let ev0 := [Event.prompt "Masukkan ip:port untuk pair",
              Event.prompt "Masukkan kode PIN"]
  match run_adb w ["pair", inp.hostport, inp.pin] with
  | (ev1, .error e) => (ev0 ++ ev1, .error e)
  | (ev1, .ok (rc, out, err)) =>
    if rc = 0 && pyContains out "Successfully" then
      let host := pyBeforeColon inp.hostport
      match run_adb w ["connect", host ++ ":5555"] with
      | (ev2, .error e) =>
        (ev0 ++ ev1 ++ [Event.display (.success out)] ++ ev2, .error e)
      | (ev2, .ok (rc2, out2, err2)) =>
        if rc2 = 0 then
          (ev0 ++ ev1 ++ [Event.display (.success out)] ++ ev2 ++
             [Event.display (.success out2)], .ok ())
        else
          (ev0 ++ ev1 ++ [Event.display (.success out)] ++ ev2 ++
             [Event.display (.warn ("Pair ok, tapi connect gagal: " ++ pyOrStr err2 out2))],
           .ok ())
    else
      (ev0 ++ ev1 ++ [Event.display (.failure ("Pair gagal: " ++ pyOrStr err out))], .ok ())

/-- Menu 5: `connect_device()`. -/
def connect_device (w : World) (inp : Inputs) : List Event × Except PyError Unit :=
  let ev0 := [Event.prompt "Masukkan host/IP:port"]
  match run_adb w ["connect", inp.hostport] with
  | (ev, .error e) => (ev0 ++ ev, .error e)
  | (ev, .ok (rc, out, err)) =>
    if rc = 0 then (ev0 ++ ev ++ [Event.display (.success out)], .ok ())
    else (ev0 ++ ev ++ [Event.display (.failure ("Connect gagal: " ++ pyOrStr err out))], .ok ())

/-- Menu 6: `enable_tcpip()`. -/
def enable_tcpip (w : World) (inp : Inputs) : List Event × Except PyError Unit :=
  let ev0 := [Event.prompt "Masukkan port tcpip (default 5555)"]
  match run_adb w ["tcpip", inp.port] with
  | (ev, .error e) => (ev0 ++ ev, .error e)
  | (ev, .ok (rc, out, err)) =>
    if rc = 0 then (ev0 ++ ev ++ [Event.display (.success out)], .ok ())
    else (ev0 ++ ev ++ [Event.display (.failure ("Gagal set tcpip: " ++ pyOrStr err out))], .ok ())

/-- Menu 7: `open_shell()`: pick a serial (a ToolMissing raised there
propagates), then launch the attached-mode shell; the direct launch sits in
a `try/except Exception` so a launch failure there is caught and reported,
never propagated. -/
def open_shell (w : World) (inp : Inputs) : List Event × Except PyError Unit :=
  match pickSerial w inp.devChoice with
  | (ev, .error e) => (ev, .error e)
  | (ev, .ok none) => (ev, .ok ())
  | (ev, .ok (some s)) =>
    let ev := ev ++ [Event.display (.success ("Opening interactive shell to " ++ s))]
    if w.bridgePresent then
      (ev ++ [Event.rawCall [w.adbPath, "-s", s, "shell"]], .ok ())
    else
      (ev ++ [Event.display (.failure "Error starting shell: adb not found")], .ok ())

/-- Menu 8: `run_command_on_device()`: pick a serial, prompt for a command,
reject the empty command, tokenize with `shlex.split` (whose `ValueError`
on malformed input is NOT caught anywhere), then run it. -/
def run_command_on_device (w : World) (inp : Inputs) : List Event × Except PyError Unit :=
  match pickSerial w inp.devChoice with
  | (ev, .error e) => (ev, .error e)
  | (ev, .ok none) => (ev, .ok ())
  | (ev, .ok (some s)) =>
    let ev := ev ++ [Event.prompt "Masukkan perintah shell (contoh: ls /sdcard)"]
    if inp.command = "" then
      (ev ++ [Event.display (.failure "Perintah kosong.")], .ok ())
    else
      match pyShlexSplit inp.command with
      | .error msg => (ev, .error (.valueError msg))
      | .ok args =>
        match run_adb w (["-s", s, "shell"] ++ args) with
        | (ev2, .error e) => (ev ++ ev2, .error e)
        | (ev2, .ok (rc, out, err)) =>
          if rc = 0 then
            (ev ++ ev2 ++ [Event.display (.info (pyOrStr out "(no output)"))], .ok ())
          else
            (ev ++ ev2 ++ [Event.display (.failure ("Error: " ++ pyOrStr err out))], .ok ())

/-- Menu 9: `install_apk()`: the local path is validated with
`os.path.isfile` before any subprocess is launched. -/
def install_apk (w : World) (inp : Inputs) : List Event × Except PyError Unit :=
  let ev0 := [Event.prompt "Masukkan path ke file APK (lokal)"]
  if inp.apkPath = "" || !(w.isfile inp.apkPath) then
    (ev0 ++ [Event.display (.failure "File APK tidak ditemukan.")], .ok ())
  else
    match pickSerial w inp.devChoice with
    | (ev, .error e) => (ev0 ++ ev, .error e)
    | (ev, .ok none) => (ev0 ++ ev, .ok ())
    | (ev, .ok (some s)) =>
      let ev := ev0 ++ ev ++
        [Event.display (.success ("Installing " ++ inp.apkPath ++ " to " ++ s ++ " ..."))]
      match run_adb w ["-s", s, "install", "-r", inp.apkPath] with
      | (ev2, .error e) => (ev ++ ev2, .error e)
      | (ev2, .ok (rc, out, err)) =>
        if rc = 0 then (ev ++ ev2 ++ [Event.display (.success ("Install success: " ++ out))], .ok ())
        else (ev ++ ev2 ++ [Event.display (.failure ("Install failed: " ++ pyOrStr err out))], .ok ())

/-- Menu 10: `push_file()`: the local source is validated with
`os.path.exists` before any subprocess is launched. -/
def push_file (w : World) (inp : Inputs) : List Event × Except PyError Unit :=
  let ev0 := [Event.prompt "Path file sumber (PC)"]
  if inp.pushSrc = "" || !(w.pathExists inp.pushSrc) then
    (ev0 ++ [Event.display (.failure "File sumber tidak ditemukan.")], .ok ())
  else
    let ev0 := ev0 ++ [Event.prompt "Path tujuan di device"]
    match pickSerial w inp.devChoice with
    | (ev, .error e) => (ev0 ++ ev, .error e)
    | (ev, .ok none) => (ev0 ++ ev, .ok ())
    | (ev, .ok (some s)) =>
      let ev := ev0 ++ ev ++
        [Event.display (.success ("Pushing " ++ inp.pushSrc ++ " -> " ++ s ++ ":" ++ inp.pushDst))]
      match run_adb w ["-s", s, "push", inp.pushSrc, inp.pushDst] with
      | (ev2, .error e) => (ev ++ ev2, .error e)
      | (ev2, .ok (rc, out, err)) =>
        if rc = 0 then (ev ++ ev2 ++ [Event.display (.success ("Push success: " ++ out))], .ok ())
        else (ev ++ ev2 ++ [Event.display (.failure ("Push failed: " ++ pyOrStr err out))], .ok ())

/-- Menu 11: `pull_file()`: both the remote path and the local destination
are required to be non-empty; the destination's existence on disk is NOT
checked (it is the target of the copy). -/
def pull_file (w : World) (inp : Inputs) : List Event × Except PyError Unit :=
  let ev0 := [Event.prompt "Path file di device"]
  if inp.pullRemote = "" then
    (ev0 ++ [Event.display (.failure "Path remote kosong.")], .ok ())
  else
    let ev0 := ev0 ++ [Event.prompt "Path tujuan di PC (lokal)"]
    if inp.pullDst = "" then
      (ev0 ++ [Event.display (.failure "Path tujuan kosong.")], .ok ())
    else
      match pickSerial w inp.devChoice with
      | (ev, .error e) => (ev0 ++ ev, .error e)
      | (ev, .ok none) => (ev0 ++ ev, .ok ())
      | (ev, .ok (some s)) =>
        let ev := ev0 ++ ev ++
          [Event.display (.success ("Pulling " ++ s ++ ":" ++ inp.pullRemote ++ " -> " ++ inp.pullDst))]
        match run_adb w ["-s", s, "pull", inp.pullRemote, inp.pullDst] with
        | (ev2, .error e) => (ev ++ ev2, .error e)
        | (ev2, .ok (rc, out, err)) =>
          if rc = 0 then (ev ++ ev2 ++ [Event.display (.success ("Pull success: " ++ out))], .ok ())
          else (ev ++ ev2 ++ [Event.display (.failure ("Pull failed: " ++ pyOrStr err out))], .ok ())

/-- Menu 12: `reboot_device()`: the mode token is appended only when the
mode is non-empty and different from `"normal"`. -/
def reboot_device (w : World) (inp : Inputs) : List Event × Except PyError Unit :=
  match pickSerial w inp.devChoice with
  | (ev, .error e) => (ev, .error e)
  | (ev, .ok none) => (ev, .ok ())
  | (ev, .ok (some s)) =>
    let ev := ev ++ [Event.prompt "Mode reboot? (normal/bootloader/recovery)"]
    let args := ["-s", s, "reboot"]
    let args := if inp.rebootMode != "" && inp.rebootMode != "normal"
                then args ++ [inp.rebootMode] else args
    match run_adb w args with
    | (ev2, .error e) => (ev ++ ev2, .error e)
    | (ev2, .ok (rc, out, err)) =>
      if rc = 0 then (ev ++ ev2 ++ [Event.display (.success "Reboot command sent.")], .ok ())
      else (ev ++ ev2 ++ [Event.display (.failure ("Reboot failed: " ++ pyOrStr err out))], .ok ())

/-- Menu 13: `disconnect_device()`: an empty host means bare `disconnect`,
a non-empty host is passed through verbatim. -/
def disconnect_device (w : World) (inp : Inputs) : List Event × Except PyError Unit :=
  let ev0 := [Event.prompt "Masukkan host/IP:port untuk disconnect (atau kosong untuk all)"]
  match (if inp.disconnectHost ≠ "" then run_adb w ["disconnect", inp.disconnectHost]
         else run_adb w ["disconnect"]) with
  | (ev, .error e) => (ev0 ++ ev, .error e)
  | (ev, .ok (rc, out, err)) =>
    if rc = 0 then (ev0 ++ ev ++ [Event.display (.success (pyOrStr out "Disconnected."))], .ok ())
    else (ev0 ++ ev ++ [Event.display (.failure ("Disconnect failed: " ++ pyOrStr err out))], .ok ())

/-- The static reference text of menu 15 (abbreviated; presentation text is
out of scope). -/
def helpText : String := "Panduan Penggunaan Menu ADB"

/-- Menu 15: `show_help()`. -/
def show_help : List Event × Except PyError Unit :=
  ([Event.display (.info helpText)], .ok ())

/-- Menu 14: `try_screen_mirroring()`: resolve/acquire scrcpy (oracle), then
check for a connected device via `run_adb(["devices"])` (a ToolMissing
raised there propagates — only the scrcpy launch itself is inside a
`try/except`), then launch scrcpy attached. -/
def try_screen_mirroring (w : World) : List Event × Except PyError Unit :=
  match w.scrcpyResolve with
  | none => ([Event.display (.failure "scrcpy tidak tersedia.")], .ok ())
  | some p =>
    match run_adb w ["devices"] with
    | (ev, .error e) => (ev, .error e)
    | (ev, .ok (_rc, out, _err)) =>
      let lines := (pySplitlines out).drop 1
      let devices := lines.filter fun line =>
        pyContains line "device" && !(pyStartsWith line "*")
      if devices = [] then
        (ev ++ [Event.display (.failure "Tidak ada device ADB terhubung.")], .ok ())
      else
        (ev ++ [Event.display (.success "Menjalankan scrcpy...")] ++ [Event.rawCall [p]], .ok ())

/-! ## Session loop -/

/-- The outcome of one cycle of `main_loop`: continue to the next cycle,
user-confirmed exit, controlled termination after a `FileNotFoundError`
(ToolMissing), or an uncaught exception crashing the process. -/
inductive LoopOutcome where
  | next
  | exitUser
  | fatalToolMissing
  | crash (e : PyError)
  deriving DecidableEq

/-- The `if/elif` dispatch of `main_loop` over the menu selections `1`-`15`
(the unknown-selection branch reports and continues). -/
def dispatch (w : World) (inp : Inputs) (choice : String) :
    List Event × Except PyError Unit :=
  if choice = "1" then list_devices w
  else if choice = "2" then start_server w
  else if choice = "3" then stop_server w
  else if choice = "4" then pair_device w inp
  else if choice = "5" then connect_device w inp
  else if choice = "6" then enable_tcpip w inp
  else if choice = "7" then open_shell w inp
  else if choice = "8" then run_command_on_device w inp
  else if choice = "9" then install_apk w inp
  else if choice = "10" then push_file w inp
  else if choice = "11" then pull_file w inp
  else if choice = "12" then reboot_device w inp
  else if choice = "13" then disconnect_device w inp
  else if choice = "14" then try_screen_mirroring w
  else if choice = "15" then show_help
  else ([Event.display (.failure "Pilihan tidak dikenal.")], .ok ())

/-- One cycle of `main_loop`'s body: exit handling for `"0"`, otherwise the
dispatch wrapped in `try/except` that catches ONLY `FileNotFoundError`
(reported, then `break`) — any other exception escapes uncaught. -/
def loop_step (w : World) (inp : Inputs) (choice : String) :
    List Event × LoopOutcome :=
  if choice = "0" then
    if inp.confirmExit then ([Event.display (.info "Sampai jumpa!")], .exitUser)
    else ([], .next)
  else
    match dispatch w inp choice with
    | (ev, .ok _) => (ev, .next)
    | (ev, .error (.fileNotFound msg)) =>
      (ev ++ [Event.display (.failure msg)], .fatalToolMissing)
    | (ev, .error e) => (ev, .crash e)

/-! ## Trace observations -/

/-- The captured-mode bridge invocations in a trace. -/
def bridgeCalls (evs : List Event) : List (List String) :=
  evs.filterMap fun e => match e with
    | .bridgeCall args => some args
    | _ => none

/-- Every subprocess launch in a trace (bridge or attached). -/
def launches (evs : List Event) : List (List String) :=
  evs.filterMap fun e => match e with
    | .bridgeCall args => some args
    | .rawCall args => some args
    | _ => none

/-- Whether a trace contains any interactive prompt. -/
def hasPrompt (evs : List Event) : Bool :=
  evs.any fun e => match e with | .prompt _ => true | _ => false

/-- Whether a trace contains a red failure report. -/
def hasFailureDisplay (evs : List Event) : Bool :=
  evs.any fun e => match e with | .display (.failure _) => true | _ => false

/-- Whether a trace contains a yellow warning report. -/
def hasWarnDisplay (evs : List Event) : Bool :=
  evs.any fun e => match e with | .display (.warn _) => true | _ => false

/-! ## Concrete environments used by witnesses and counterexamples -/

/-- A world where the bridge executable is entirely absent and unresolvable
(but the mirroring tool and all local files are available, so nothing else
blocks an operation before its first bridge invocation). -/
def absentWorld : World :=
  { bridgePresent := false
    adbPath := "adb"
    exec := fun _ => (0, "", "")
    isfile := fun _ => true
    pathExists := fun _ => true
    scrcpyResolve := some "scrcpy" }

/-- A world with the bridge present and exactly one ready device; no local
file exists. -/
def oneDevWorld : World :=
  { bridgePresent := true
    adbPath := "/usr/bin/adb"
    exec := fun args =>
      if args = ["devices"] then
        (0, "List of devices attached\nemulator-5554\tdevice\n", "")
      else (0, "", "")
    isfile := fun _ => false
    pathExists := fun _ => false
    scrcpyResolve := none }

/-- A world with the bridge present and three ready devices. -/
def threeDevWorld : World :=
  { bridgePresent := true
    adbPath := "/usr/bin/adb"
    exec := fun args =>
      if args = ["devices"] then
        (0, "List of devices attached\naaa\tdevice\nbbb\tdevice\nccc\tdevice\n", "")
      else (0, "", "")
    isfile := fun _ => false
    pathExists := fun _ => false
    scrcpyResolve := none }

/-- A world with the bridge present where pairing succeeds (exit 0 with the
success marker in stdout) and the follow-up connect fails (exit 1). -/
def pairWorld : World :=
  { bridgePresent := true
    adbPath := "/usr/bin/adb"
    exec := fun args =>
      if args = ["pair", "192.168.0.5:37099", "123456"] then
        (0, "Successfully paired to 192.168.0.5:37099", "")
      else if args = ["connect", "192.168.0.5:5555"] then
        (1, "", "failed to connect to 192.168.0.5:5555")
      else if args = ["devices"] then
        (0, "List of devices attached\nemulator-5554\tdevice\n", "")
      else (0, "", "")
    isfile := fun _ => false
    pathExists := fun _ => false
    scrcpyResolve := none }

/-- All-empty prompt answers. -/
def emptyInputs : Inputs :=
  { hostport := ""
    pin := ""
    port := ""
    command := ""
    apkPath := ""
    pushSrc := ""
    pushDst := ""
    pullRemote := ""
    pullDst := ""
    rebootMode := ""
    disconnectHost := ""
    devChoice := ""
    confirmExit := false }

/-- A representative full set of prompt answers. -/
def demoInputs : Inputs :=
  { hostport := "192.168.0.5:37099"
    pin := "123456"
    port := "5555"
    command := "ls /sdcard"
    apkPath := "/tmp/app.apk"
    pushSrc := "/tmp/a.txt"
    pushDst := "/sdcard/"
    pullRemote := "/sdcard/f.txt"
    pullDst := "/tmp/out.txt"
    rebootMode := "normal"
    disconnectHost := ""
    devChoice := "1"
    confirmExit := false }

/-- Prompt answers whose Run-command string has an unbalanced double quote. -/
def crashInputs : Inputs :=
  { emptyInputs with command := "ls \"foo", devChoice := "1" }

/-! ## Claims -/

/-- Claim C2, counterexample. The device selector filters with the bare
substring test `"device" in line`, so a diagnostic banner line beginning
with `*` that happens to contain the substring `device` IS selectable (its
first token, `*`, becomes a serial), and a line whose state is `offline`
but whose serial contains `device` is selectable too — refuting the claim
that `*`-lines and `unauthorized`/`offline` lines are never selectable. -/
theorem C2_counterexample_banner_selectable :
    pyStartsWith "* daemon restarting device *" "*" = true ∧
    selectableLine "* daemon restarting device *" = true ∧
    readySerials "List of devices attached\n* daemon restarting device *" = ["*"] ∧
    selectableLine "mydevice1\toffline" = true ∧
    readySerials "List of devices attached\nmydevice1\toffline" = ["mydevice1"] := by
  decide

/-- Claim C2 (amended): for every device-listing stdout the first (header)
line is discarded, and a subsequent line contributes a selectable serial
(its first whitespace-delimited token) exactly when it is non-blank and
contains the substring `device` anywhere in the line; `unauthorized`,
`offline` and `*`-banner lines are excluded exactly when they do not
contain that substring. -/
theorem C2_selectable_iff_contains_device :
    (∀ out s, s ∈ readySerials out ↔
      ∃ line, line ∈ (pySplitlines out).drop 1 ∧
        selectableLine line = true ∧ pyFirstToken line = s) ∧
    (∀ line, selectableLine line = true ↔
      (pyStrip line ≠ "" ∧ pyContains line "device" = true)) := by
  constructor
  · intro out s
    simp only [readySerials, List.mem_filterMap]
    constructor
    · rintro ⟨line, hm, hf⟩
      by_cases h : selectableLine line = true
      · refine ⟨line, hm, h, ?_⟩
        simpa [h] using hf
      · simp [h] at hf
    · rintro ⟨line, hm, hsel, htok⟩
      exact ⟨line, hm, by simp [hsel, htok]⟩
  · intro line
    simp [selectableLine]

/-- Claim C6 (code bug): a Run-command string with an unbalanced double
quote makes `shlex.split` raise `ValueError("No closing quotation")`, which
is caught nowhere — it escapes `run_command_on_device` and the session
loop's `except FileNotFoundError` handler, crashing the process instead of
being converted to a displayable outcome. -/
theorem C6_unbalanced_quote_crashes_loop :
    pyShlexSplit crashInputs.command = .error "No closing quotation" ∧
    (run_command_on_device oneDevWorld crashInputs).2 =
      .error (.valueError "No closing quotation") ∧
    (loop_step oneDevWorld crashInputs "8").2 =
      LoopOutcome.crash (.valueError "No closing quotation") ∧
    LoopOutcome.crash (.valueError "No closing quotation") ≠ LoopOutcome.next ∧
    LoopOutcome.crash (.valueError "No closing quotation") ≠ LoopOutcome.fatalToolMissing :=
  ⟨rfl, rfl, rfl, by decide, by decide⟩

/-- Claim C7: with more than one ready device listed, a selection input that
`int()` cannot parse makes the device selector return the FIRST listed
serial instead of failing. -/
theorem C7_unparseable_choice_defaults_first (w : World) (choice out err : String)
    (s0 s1 : String) (rest : List String)
    (hb : w.bridgePresent = true)
    (hex : w.exec ["devices"] = (0, out, err))
    (hser : readySerials (pyStrip out) = s0 :: s1 :: rest)
    (hparse : pyParseInt choice = none) :
    (pickSerial w choice).2 = .ok (some s0) := by
  simp [pickSerial, run_adb, hb, hex, hser, pySelectSerial, hparse]

/-- Claim C7 witness: three ready devices, unparseable input `"zz"` selects
the first serial `aaa`. -/
theorem C7_witness :
    (pickSerial threeDevWorld "zz").2 = .ok (some "aaa") := by
  have h := C7_unparseable_choice_defaults_first threeDevWorld "zz"
    "List of devices attached\naaa\tdevice\nbbb\tdevice\nccc\tdevice\n" ""
    "aaa" "bbb" ["ccc"] rfl rfl (by decide) (by decide)
  exact h

/-- Claim C9: empty host input makes Disconnect invoke the bridge with the
single token `disconnect`; non-empty input appends the host verbatim. -/
theorem C9_disconnect_args (w : World) (inp : Inputs)
    (hb : w.bridgePresent = true) :
    (inp.disconnectHost = "" →
      bridgeCalls (disconnect_device w inp).1 = [["disconnect"]]) ∧
    (inp.disconnectHost ≠ "" →
      bridgeCalls (disconnect_device w inp).1 = [["disconnect", inp.disconnectHost]]) := by
  constructor
  · intro h
    simp only [disconnect_device, h, ne_eq, not_true_eq_false, if_false, run_adb, hb, if_true]
    split <;> simp [bridgeCalls]
  · intro h
    simp only [disconnect_device, ne_eq, h, not_false_eq_true, if_true, run_adb, hb]
    split <;> simp [bridgeCalls]

/-- Claim C9 witness: empty host gives the bare `disconnect` invocation. -/
theorem C9_witness :
    bridgeCalls (disconnect_device oneDevWorld emptyInputs).1 = [["disconnect"]] :=
  (C9_disconnect_args oneDevWorld emptyInputs rfl).1 rfl

/-- Claim C4: on a successful listing the selector auto-returns the sole
ready serial without prompting, prompts when there are at least two, and
reports absence returning nothing when there are none. -/
theorem C4_pick_cardinality (w : World) (choice out err : String)
    (hb : w.bridgePresent = true)
    (hex : w.exec ["devices"] = (0, out, err)) :
    (∀ s, readySerials (pyStrip out) = [s] →
      (pickSerial w choice).2 = .ok (some s) ∧
      hasPrompt (pickSerial w choice).1 = false) ∧
    (2 ≤ (readySerials (pyStrip out)).length →
      hasPrompt (pickSerial w choice).1 = true) ∧
    (readySerials (pyStrip out) = [] →
      (pickSerial w choice).2 = .ok none ∧
      Event.display (Msg.failure "Tidak ada device tersedia.") ∈ (pickSerial w choice).1) := by
  refine ⟨?_, ?_, ?_⟩
  · intro s hs
    simp [pickSerial, run_adb, hb, hex, hs, hasPrompt]
  · intro hlen
    rcases h : readySerials (pyStrip out) with _ | ⟨a, _ | ⟨b, t⟩⟩
    · rw [h] at hlen; simp at hlen
    · rw [h] at hlen; simp at hlen
    · simp [pickSerial, run_adb, hb, hex, h, hasPrompt]
  · intro h0
    simp [pickSerial, run_adb, hb, hex, h0]

/-- Claim C4 witness: the single ready device `emulator-5554` is returned
with no prompt. -/
theorem C4_witness :
    (pickSerial oneDevWorld "").2 = .ok (some "emulator-5554") ∧
    hasPrompt (pickSerial oneDevWorld "").1 = false := by
  have h := C4_pick_cardinality oneDevWorld ""
    "List of devices attached\nemulator-5554\tdevice\n" "" rfl rfl
  exact h.1 "emulator-5554" (by decide)

/-- Python semantics of `serials[int(choice) - 1]` for a parsed non-positive
selection: index `-(k) - 1` resolves, by negative indexing, to position
`len - k - 1` whenever `k < len`. -/
theorem pySelectSerial_neg (serials : List String) (choice : String) (k : Nat)
    (hparse : pyParseInt choice = some (-(k : Int)))
    (hk : k < serials.length) :
    some (pySelectSerial serials choice) = serials.get? (serials.length - k - 1) := by
  have hidx : serials.length - k - 1 < serials.length := by omega
  have h1 : ¬ (0 ≤ -(k : Int) - 1) := by omega
  have h2 : (-(k : Int) - 1).natAbs = k + 1 := by omega
  have h3 : serials.length - (k + 1) = serials.length - k - 1 := by omega
  have hpi : pyIndex serials (-(k : Int) - 1) =
      serials.get? (serials.length - k - 1) := by
    simp only [pyIndex, if_neg h1, h2, h3,
      if_pos (show k + 1 ≤ serials.length by omega)]
  rw [List.get?_eq_get hidx] at hpi
  simp [pySelectSerial, hparse, hpi, List.get?_eq_get hidx]

/-- Claim C10: with at least two ready devices, a selection parsing to the
integer `-k` with `k < n` is applied with Python negative-index semantics
and returns the serial at 0-based position `n - k - 1` (so input `0`
returns the LAST serial), rather than being rejected. -/
theorem C10_negative_index_selection (w : World) (choice out err : String)
    (serials : List String) (k : Nat)
    (hb : w.bridgePresent = true)
    (hex : w.exec ["devices"] = (0, out, err))
    (hser : readySerials (pyStrip out) = serials)
    (hlen : 2 ≤ serials.length)
    (hparse : pyParseInt choice = some (-(k : Int)))
    (hk : k < serials.length) :
    (pickSerial w choice).2 = .ok (serials.get? (serials.length - k - 1)) := by
  rcases serials with _ | ⟨a, _ | ⟨b, t⟩⟩
  · simp at hlen
  · simp at hlen
  · have hsel := pySelectSerial_neg (a :: b :: t) choice k hparse hk
    simp only [pickSerial, run_adb, hb, if_true, hex, hser]
    simpa using hsel

/-- Claim C10 witness: three ready devices and selection input `0` yield
the last serial `ccc`. -/
theorem C10_witness :
    (pickSerial threeDevWorld "0").2 = .ok (some "ccc") := by
  have h := C10_negative_index_selection threeDevWorld "0"
    "List of devices attached\naaa\tdevice\nbbb\tdevice\nccc\tdevice\n" ""
    ["aaa", "bbb", "ccc"] 0 rfl rfl (by decide) (by decide) (by decide) (by decide)
  exact h

/-- Claim C8: the reboot argument list is exactly the 3 tokens
`-s <serial> reboot` when the mode is `normal` or empty, and exactly the 4
tokens `-s <serial> reboot <mode>` for every other mode. -/
theorem C8_reboot_arg_tokens (w : World) (inp : Inputs) (s : String)
    (hb : w.bridgePresent = true)
    (hpick : (pickSerial w inp.devChoice).2 = .ok (some s)) :
    ((inp.rebootMode = "normal" ∨ inp.rebootMode = "") →
      bridgeCalls (reboot_device w inp).1 =
        bridgeCalls (pickSerial w inp.devChoice).1 ++ [["-s", s, "reboot"]] ∧
      (["-s", s, "reboot"] : List String).length = 3) ∧
    ((inp.rebootMode ≠ "normal" ∧ inp.rebootMode ≠ "") →
      bridgeCalls (reboot_device w inp).1 =
        bridgeCalls (pickSerial w inp.devChoice).1 ++ [["-s", s, "reboot", inp.rebootMode]] ∧
      (["-s", s, "reboot", inp.rebootMode] : List String).length = 4) := by
  rcases hpp : pickSerial w inp.devChoice with ⟨ev, r⟩
  rw [hpp] at hpick
  simp only at hpick
  subst hpick
  constructor
  · intro hm
    have hcond : (inp.rebootMode != "" && inp.rebootMode != "normal") = false := by
      rcases hm with hm | hm <;> simp [hm]
    refine ⟨?_, rfl⟩
    simp only [reboot_device, hpp, hcond, Bool.false_eq_true, if_false, run_adb, hb, if_true]
    split <;> simp [bridgeCalls, List.filterMap_append]
  · rintro ⟨hm1, hm2⟩
    have hcond : (inp.rebootMode != "" && inp.rebootMode != "normal") = true := by
      simp [hm1, hm2]
    refine ⟨?_, rfl⟩
    simp only [reboot_device, hpp, hcond, if_true, run_adb, hb]
    split <;> simp [bridgeCalls, List.filterMap_append]

/-- Claim C8 witness: mode `normal` yields the 3-token invocation after the
device-listing call. -/
theorem C8_witness :
    bridgeCalls (reboot_device oneDevWorld demoInputs).1 =
      bridgeCalls (pickSerial oneDevWorld demoInputs.devChoice).1 ++
        [["-s", "emulator-5554", "reboot"]] := by
  have h := C8_reboot_arg_tokens oneDevWorld demoInputs "emulator-5554" rfl rfl
  exact (h.1 (Or.inl rfl)).1

/-- Claim C3: the auto-connect follow-up is issued iff the pair call exits 0
with the `Successfully` marker in stdout; the follow-up targets
`<host-before-first-colon>:5555`; and a failing follow-up leaves the pair
operation's outcome a success with a warning, never a failure. -/
theorem C3_pair_autoconnect (w : World) (inp : Inputs) (rc : Int) (out err : String)
    (hb : w.bridgePresent = true)
    (hex : w.exec ["pair", inp.hostport, inp.pin] = (rc, out, err)) :
    ((rc = 0 ∧ pyContains (pyStrip out) "Successfully" = true) →
      bridgeCalls (pair_device w inp).1 =
        [["pair", inp.hostport, inp.pin],
         ["connect", pyBeforeColon inp.hostport ++ ":5555"]]) ∧
    (¬ (rc = 0 ∧ pyContains (pyStrip out) "Successfully" = true) →
      bridgeCalls (pair_device w inp).1 = [["pair", inp.hostport, inp.pin]]) ∧
    ((rc = 0 ∧ pyContains (pyStrip out) "Successfully" = true ∧
        (w.exec ["connect", pyBeforeColon inp.hostport ++ ":5555"]).1 ≠ 0) →
      (pair_device w inp).2 = .ok () ∧
      Event.display (Msg.success (pyStrip out)) ∈ (pair_device w inp).1 ∧
      hasWarnDisplay (pair_device w inp).1 = true ∧
      hasFailureDisplay (pair_device w inp).1 = false) := by
  rcases hex2 : w.exec ["connect", pyBeforeColon inp.hostport ++ ":5555"] with ⟨rc2, out2, err2⟩
  refine ⟨?_, ?_, ?_⟩
  · rintro ⟨hrc, hmark⟩
    subst hrc
    simp only [pair_device, run_adb, hb, if_true, hex, hmark, hex2]
    simp only [decide_True, Bool.true_and, if_true]
    split <;> simp [bridgeCalls, List.filterMap_append]
  · intro hn
    have hcond : (decide (rc = 0) && pyContains (pyStrip out) "Successfully") = false := by
      by_cases hrc : rc = 0
      · have : pyContains (pyStrip out) "Successfully" = false := by
          rcases Bool.eq_false_or_eq_true (pyContains (pyStrip out) "Successfully") with h | h
          · exact absurd ⟨hrc, h⟩ hn
          · exact h
        simp [this]
      · simp [hrc]
    simp only [pair_device, run_adb, hb, if_true, hex, hcond, Bool.false_eq_true, if_false]
    simp [bridgeCalls, List.filterMap_append]
  · rintro ⟨hrc, hmark, hrc2⟩
    subst hrc
    have hrc2 : rc2 ≠ 0 := by simpa using hrc2
    simp only [pair_device, run_adb, hb, if_true, hex, hmark, hex2]
    simp only [decide_True, Bool.true_and, if_true]
    rw [if_neg hrc2]
    simp [hasWarnDisplay, hasFailureDisplay]

/-- Claim C3 witness: pairing at `192.168.0.5:37099` exits 0 with stdout
`Successfully paired to 192.168.0.5:37099`, so a connect to
`192.168.0.5:5555` is issued; it fails with exit 1 and the pair outcome
stays a success with a warning. -/
theorem C3_witness :
    bridgeCalls (pair_device pairWorld demoInputs).1 =
      [["pair", "192.168.0.5:37099", "123456"], ["connect", "192.168.0.5:5555"]] ∧
    (pair_device pairWorld demoInputs).2 = .ok () ∧
    hasWarnDisplay (pair_device pairWorld demoInputs).1 = true ∧
    hasFailureDisplay (pair_device pairWorld demoInputs).1 = false := by
  have h := C3_pair_autoconnect pairWorld demoInputs 0
    "Successfully paired to 192.168.0.5:37099" "" rfl rfl
  have h3 := h.2.2 ⟨rfl, by decide, by decide⟩
  exact ⟨h.1 ⟨rfl, by decide⟩, h3.1, h3.2.2.1, h3.2.2.2⟩

/-- Claim C5, counterexample. Pull with a non-empty local destination that
does NOT exist on disk still invokes the bridge (the device listing and the
pull itself): the destination's existence is never checked. -/
theorem C5_counterexample_pull_nonexistent_dst :
    demoInputs.pullDst ≠ "" ∧
    oneDevWorld.pathExists demoInputs.pullDst = false ∧
    bridgeCalls (pull_file oneDevWorld demoInputs).1 =
      [["devices"], ["-s", "emulator-5554", "pull", "/sdcard/f.txt", "/tmp/out.txt"]] := by
  refine ⟨by decide, rfl, by decide⟩

/-- Claim C5 (amended): Install never launches any subprocess when its APK
path is empty or not an existing file; Push never when its source is empty
or nonexistent; Pull never when its remote path or local destination is
EMPTY (the destination's existence on disk is not checked, as it is the
target of the copy); in each case the validation failure is reported. -/
theorem C5_local_path_validation (w : World) (inp : Inputs)
    (h1 : inp.apkPath = "" ∨ w.isfile inp.apkPath = false)
    (h2 : inp.pushSrc = "" ∨ w.pathExists inp.pushSrc = false)
    (h3 : inp.pullRemote = "" ∨ inp.pullDst = "") :
    (launches (install_apk w inp).1 = [] ∧
      hasFailureDisplay (install_apk w inp).1 = true) ∧
    (launches (push_file w inp).1 = [] ∧
      hasFailureDisplay (push_file w inp).1 = true) ∧
    (launches (pull_file w inp).1 = [] ∧
      hasFailureDisplay (pull_file w inp).1 = true) := by
  refine ⟨?_, ?_, ?_⟩
  · rcases h1 with h | h <;> simp [install_apk, h, launches, hasFailureDisplay]
  · rcases h2 with h | h <;> simp [push_file, h, launches, hasFailureDisplay]
  · rcases h3 with h | h
    · simp [pull_file, h, launches, hasFailureDisplay]
    · by_cases hr : inp.pullRemote = "" <;>
        simp [pull_file, h, hr, launches, hasFailureDisplay]

/-- Claim C5 witness: with all-empty inputs none of the three operations
launches any subprocess. -/
theorem C5_witness :
    launches (install_apk oneDevWorld emptyInputs).1 = [] ∧
    launches (push_file oneDevWorld emptyInputs).1 = [] ∧
    launches (pull_file oneDevWorld emptyInputs).1 = [] := by
  have h := C5_local_path_validation oneDevWorld emptyInputs
    (Or.inl rfl) (Or.inl rfl) (Or.inl rfl)
  exact ⟨h.1.1, h.2.1.1, h.2.2.1⟩

/-- Claim C1, counterexample. Help (menu 15) is a catalog operation, yet
with the bridge entirely absent it completes normally and the loop
continues — no ToolMissing condition arises and the session does not
terminate. -/
theorem C1_counterexample_help_continues :
    absentWorld.bridgePresent = false ∧
    (loop_step absentWorld emptyInputs "15").2 = LoopOutcome.next ∧
    LoopOutcome.next ≠ LoopOutcome.fatalToolMissing :=
  ⟨rfl, rfl, by decide⟩

/-- Claim C1 (amended): with the bridge executable entirely absent, every
catalog operation that reaches a bridge invocation — all menu choices 1-14,
given that the mirroring tool resolves and the Install/Push/Pull local-path
validations pass — raises the distinguished ToolMissing condition and the
session loop terminates after reporting it (Help, menu 15, never touches
the bridge and the loop continues). -/
theorem C1_toolMissing_terminates (w : World) (inp : Inputs) (choice : String)
    (hb : w.bridgePresent = false)
    (hapk0 : inp.apkPath ≠ "") (hapk : w.isfile inp.apkPath = true)
    (hsrc0 : inp.pushSrc ≠ "") (hsrc : w.pathExists inp.pushSrc = true)
    (hrem : inp.pullRemote ≠ "") (hdst : inp.pullDst ≠ "")
    (hscr : w.scrcpyResolve.isSome = true)
    (hch : choice ∈ (["1", "2", "3", "4", "5", "6", "7", "8", "9", "10",
      "11", "12", "13", "14"] : List String)) :
    (loop_step w inp choice).2 = LoopOutcome.fatalToolMissing ∧
    Event.display (Msg.failure adbMissingMsg) ∈ (loop_step w inp choice).1 := by
  obtain ⟨p, hp⟩ := Option.isSome_iff_exists.mp hscr
  simp only [List.mem_cons, List.not_mem_nil, or_false] at hch
  rcases hch with rfl | rfl | rfl | rfl | rfl | rfl | rfl | rfl | rfl | rfl | rfl | rfl | rfl | rfl
  · simp [loop_step, dispatch, list_devices, run_adb, hb]
  · simp [loop_step, dispatch, start_server, run_adb, hb]
  · simp [loop_step, dispatch, stop_server, run_adb, hb]
  · simp [loop_step, dispatch, pair_device, run_adb, hb]
  · simp [loop_step, dispatch, connect_device, run_adb, hb]
  · simp [loop_step, dispatch, enable_tcpip, run_adb, hb]
  · simp [loop_step, dispatch, open_shell, pickSerial, run_adb, hb]
  · simp [loop_step, dispatch, run_command_on_device, pickSerial, run_adb, hb]
  · simp [loop_step, dispatch, install_apk, pickSerial, run_adb, hb, hapk0, hapk]
  · simp [loop_step, dispatch, push_file, pickSerial, run_adb, hb, hsrc0, hsrc]
  · simp [loop_step, dispatch, pull_file, pickSerial, run_adb, hb, hrem, hdst]
  · simp [loop_step, dispatch, reboot_device, pickSerial, run_adb, hb]
  · simp [loop_step, dispatch, disconnect_device, run_adb, hb]
  · simp [loop_step, dispatch, try_screen_mirroring, hp, run_adb, hb]

/-- Claim C1 witness: listing devices (menu 1) with the bridge absent
reports ToolMissing and terminates the loop. -/
theorem C1_witness :
    (loop_step absentWorld demoInputs "1").2 = LoopOutcome.fatalToolMissing ∧
    Event.display (Msg.failure adbMissingMsg) ∈ (loop_step absentWorld demoInputs "1").1 :=
  C1_toolMissing_terminates absentWorld demoInputs "1" rfl (by decide) rfl
    (by decide) rfl (by decide) (by decide) rfl (by decide)

end Adb
